import Mathlib

/-!
Verification of the `company_eval_framework` evaluation pipeline.

Shallow embedding of the core of the `arize-evals` repository
(`src/eval_framework/src/company_eval_framework/`): threshold-based metric
computation (`runner.compute_metrics`, `runner.print_metric_summary`),
the evaluation engine (`evaluators.run_evaluations`), failure-subset
selection (`runner.run_ci_evaluation`, step 7), axial coding
(`axial.run_axial_coding`, `axial.summarize_failure_types`,
`axial.get_failure_examples`) and custom-evaluator loading
(`runner._load_custom_evaluators`, `config.py`).

Pandas/Python floats are modelled with `ℚ`; dataframes are modelled as
lists of rows plus association lists from column names to column value
lists; a raised exception is modelled with `Except`.
-/

namespace CompanyEvalFramework

/-- Threshold configuration for a single metric
(`config.ThresholdConfig`): optional `max_mean` and `min_mean` bounds. -/
structure ThresholdConfig where
  max_mean : Option ℚ
  min_mean : Option ℚ
deriving Repr, DecidableEq

/-- One entry of the list returned by `runner.compute_metrics`. -/
structure MetricResult where
  name : String
  mean : ℚ
  failure_rate : ℚ
  threshold_type : Option String
  threshold_value : Option ℚ
  passed : Bool
deriving Repr, DecidableEq

/-- Mean of a score column (`pandas.Series.mean`), in exact rational
arithmetic. -/
def dfMean (scores : List ℚ) : ℚ := scores.sum / scores.length

/-- Loop body of `runner.compute_metrics` for one evaluator whose score
column is present: starting from `passed = True`,
`threshold_type = None`, `threshold_value = None`, the `max_mean` branch
(if set) assigns `threshold_type = "max"`, `threshold_value = max_mean`,
`passed = (1 - mean_score) <= max_mean`, and then the `min_mean` branch
(if set) assigns `threshold_type = "min"`, `threshold_value = min_mean`,
`passed = passed and (mean_score >= min_mean)`. -/
def computeMetricEntry (name : String) (mean_score : ℚ)
    (threshold : Option ThresholdConfig) : MetricResult :=
  let passed := true
  let threshold_type : Option String := none
  let threshold_value : Option ℚ := none
  let state :=
    match threshold with
    | none => (passed, threshold_type, threshold_value)
    | some t =>
      let state1 :=
        match t.max_mean with
        | some m => (decide ((1 - mean_score) ≤ m), some "max", some m)
        | none => (passed, threshold_type, threshold_value)
      match t.min_mean with
      | some m => (state1.1 && decide (mean_score ≥ m), some "min", some m)
      | none => state1
  { name := name
    mean := mean_score
    failure_rate := 1 - mean_score
    threshold_type := state.2.1
    threshold_value := state.2.2
    passed := state.1 }

/-- The function `runner.compute_metrics`: for each evaluator (by name,
in order), skip it if its `<name>_score` column is absent from the
results frame, otherwise aggregate the column mean and compare against
`thresholds.get(name)`. -/
def compute_metrics (evaluatorNames : List String)
    (frame : List (String × List ℚ))
    (thresholds : List (String × ThresholdConfig)) : List MetricResult :=
  evaluatorNames.filterMap fun nm =>
    (frame.lookup (nm ++ "_score")).map fun scores =>
      computeMetricEntry nm (dfMean scores) (thresholds.lookup nm)

/-- The boolean returned by `runner.print_metric_summary`: `all_passed`
starts `True` and is set to `False` by every metric with `passed =
False`. -/
def print_metric_summary (metric_results : List MetricResult) : Bool :=
  metric_results.foldl
    (fun all_passed m => if !m.passed then false else all_passed) true

/-- Evaluator specification (`evaluators.EvaluatorSpec`): name, prompt
template, rails map, required input columns and the single label counted
as success. -/
structure EvaluatorSpec where
  name : String
  template : String
  rails_map : List (String × String)
  input_columns : List String
  positive_label : String
deriving Repr, DecidableEq

/-- Rails handed to the judge: `list(rails_map.keys())`. -/
def EvaluatorSpec.rails (ev : EvaluatorSpec) : List String :=
  ev.rails_map.map fun p => p.1

/-- Result frame of one `phoenix.evals.llm_classify` call: a `label`
column and an optional `explanation` column. -/
structure ClassifyResult where
  labels : List String
  explanations : Option (List String)
deriving Repr, DecidableEq

/-- The judge capability: one batched classify call over a template, a
rails list and the rows of a dataframe; a raised exception is modelled
as `Except.error` carrying the exception text. -/
def Judge (α : Type) : Type :=
  String → List String → List α → Except String ClassifyResult

/-- Columns `<name>_label`, `<name>_score`, `<name>_explanation` added to
the result frame for one evaluator by `evaluators.run_evaluations`. -/
structure EvalColumns where
  label : List String
  score : List ℚ
  explanation : List String
deriving Repr, DecidableEq

/-- The engine `evaluators.run_evaluations`: for each evaluator, one
batched classify call over a copy of the input frame; on success the
label column is stored, the score column is
`(label == positive_label).astype(float)` and the explanation column is
the judge explanation (or `""` broadcast when absent); on an exception
the three columns are the broadcasts `"error"`, `0.0` and the exception
text. The input rows are returned unchanged alongside the added
columns. -/
def run_evaluations {α : Type} (df : List α) (evaluators : List EvaluatorSpec)
    (llm : Judge α) : List α × List (String × EvalColumns) :=
  (df, evaluators.map fun ev =>
    (ev.name,
      match llm ev.template ev.rails df with
      | .ok eval_result =>
        { label := eval_result.labels
          score := eval_result.labels.map fun l =>
            if l = ev.positive_label then (1 : ℚ) else 0
          explanation :=
            match eval_result.explanations with
            | some ex => ex
            | none => df.map fun _ => "" }
      | .error e =>
        { label := df.map fun _ => "error"
          score := df.map fun _ => (0 : ℚ)
          explanation := df.map fun _ => e }))

/-- One iteration of the failure-mask loop in
`runner.run_ci_evaluation` (step 7): if the evaluator's `<name>_score`
column exists, or the mask with `score < 1.0`, else leave it. -/
def maskStep (eval_results : List (String × List ℚ))
    (mask : List Bool) (ev : EvaluatorSpec) : List Bool :=
  match eval_results.lookup (ev.name ++ "_score") with
  | some scores => List.zipWith (fun m s => m || decide (s < 1)) mask scores
  | none => mask

/-- Failure-mask computation of `runner.run_ci_evaluation` (step 7): a
series of `n` `False`s, or-ed per evaluator with `score < 1.0` wherever
the evaluator's `<name>_score` column exists. -/
def failure_mask (evaluators : List EvaluatorSpec)
    (eval_results : List (String × List ℚ)) (n : ℕ) : List Bool :=
  evaluators.foldl (maskStep eval_results) (List.replicate n false)

/-- Boolean-mask row selection, `eval_results[failure_mask]`. -/
def boolIndex {α : Type} (rows : List α) (mask : List Bool) : List α :=
  ((rows.zip mask).filter fun p => p.2).map fun p => p.1

/-- One failing row handed to axial coding: `input`, `output` and an
optional `context` (`none` models a missing or NaN context). -/
structure FailRow where
  input : String
  output : String
  context : Option String
deriving Repr, DecidableEq

/-- Prompt template `axial.FAILURE_TYPE_PROMPT_TEMPLATE`. -/
def FAILURE_TYPE_PROMPT_TEMPLATE : String :=
  "\nYou are analyzing why an LLM application's response failed quality checks.\n\n[User Input]\n{input}\n\n[Application Response]\n{output}\n\n[Context (if available)]\n{context}\n\n[Failure Information]\nThis response was flagged as a failure in automated evaluation.\n\nClassify the primary failure type into exactly one of these categories:\n- retrieval_error: The system failed to retrieve relevant information\n- hallucination: The response contains information not supported by context/facts\n- formatting: The response has format/structure issues but content is okay\n- refusal: The system refused to answer when it should have answered\n- irrelevant: The response doesn't address the user's actual question\n- other: Doesn't fit the above categories\n\nRespond with exactly one of: retrieval_error, hallucination, formatting, refusal, irrelevant, other\n"

/-- Rails map `axial.FAILURE_TYPE_RAILS_MAP`. -/
def FAILURE_TYPE_RAILS_MAP : List (String × String) :=
  [("retrieval_error", "retrieval_error"), ("hallucination", "hallucination"),
   ("formatting", "formatting"), ("refusal", "refusal"),
   ("irrelevant", "irrelevant"), ("other", "other")]

/-- The function `axial.build_failure_type_classifier`: the template and
the rails list. -/
def build_failure_type_classifier : String × List String :=
  (FAILURE_TYPE_PROMPT_TEMPLATE, FAILURE_TYPE_RAILS_MAP.map fun p => p.1)

/-- Context normalisation in `axial.run_axial_coding`: a missing column
or NaN entry becomes `"N/A"`. -/
def fillContext (r : FailRow) : FailRow :=
  { r with context := some (r.context.getD "N/A") }

/-- Frame returned by `axial.run_axial_coding`: the (context-filled) rows
plus the added columns, by name and in insertion order. -/
structure CodedFrame where
  base : List FailRow
  cols : List (String × List String)
deriving Repr, DecidableEq

/-- The function `axial.run_axial_coding`: an empty input returns the
empty frame that still carries `failure_type` and
`failure_type_explanation` columns, without calling the judge; otherwise
one batched classify call over the context-filled rows, whose exception
is absorbed by broadcasting `failure_type = "other"` and
`failure_type_explanation = "Classification error: <text>"`. -/
def run_axial_coding (llm : Judge FailRow) (failures_df : List FailRow) :
    CodedFrame :=
  if failures_df.isEmpty then
    { base := failures_df
      cols := [("failure_type", []), ("failure_type_explanation", [])] }
  else
    let df := failures_df.map fillContext
    match llm build_failure_type_classifier.1 build_failure_type_classifier.2 df with
    | .ok result =>
      { base := df
        cols := [("failure_type", result.labels),
                 ("failure_type_explanation",
                   match result.explanations with
                   | some ex => ex
                   | none => df.map fun _ => "")] }
    | .error e =>
      { base := df
        cols := [("failure_type", df.map fun _ => "other"),
                 ("failure_type_explanation",
                   df.map fun _ => "Classification error: " ++ e)] }

/-- Helper for `firstDedup`: keep each value not already seen, in
order. -/
def dedupAux (seen : List String) : List String → List String
  | [] => []
  | x :: xs => if x ∈ seen then dedupAux seen xs else x :: dedupAux (x :: seen) xs

/-- Distinct values of a column in order of first occurrence (the key
order of a pandas hash-based group-by). -/
def firstDedup (l : List String) : List String := dedupAux [] l

/-- Stable insertion of one keyed count into a descending-by-count list:
the new element goes before the first element whose count is not
larger. -/
def insertDescByCount (x : String × ℕ) :
    List (String × ℕ) → List (String × ℕ)
  | [] => [x]
  | y :: ys => if y.2 > x.2 then y :: insertDescByCount x ys else x :: y :: ys

/-- Stable sort by descending count (the semantics of Python's stable
`sorted(..., key=count, reverse=True)`). -/
def sortDescByCount : List (String × ℕ) → List (String × ℕ)
  | [] => []
  | x :: xs => insertDescByCount x (sortDescByCount xs)

/-- Counting of a column (`pandas.Series.value_counts`): one entry per
distinct value with its number of occurrences, sorted by descending
count, ties kept in order of first occurrence. -/
def value_counts (l : List String) : List (String × ℕ) :=
  sortDescByCount ((firstDedup l).map fun x => (x, l.count x))

/-- Summary returned by `axial.summarize_failure_types`. -/
structure FailureSummary where
  counts : List (String × ℕ)
  percentages : List (String × ℚ)
  total : ℕ
  top_types : List (String × ℕ)
deriving Repr, DecidableEq

/-- The function `axial.summarize_failure_types`: value counts of the
`failure_type` column, percentages `count / total * 100`, the row count,
and `top_types` sorted by descending count (Python's stable `sorted` on
the already-ordered count items). Empty input or a missing column gives
the all-empty summary. -/
def summarize_failure_types (coded_df : CodedFrame) : FailureSummary :=
  match coded_df.cols.lookup "failure_type" with
  | none => { counts := [], percentages := [], total := 0, top_types := [] }
  | some fts =>
    if coded_df.base.isEmpty then
      { counts := [], percentages := [], total := 0, top_types := [] }
    else
      let counts := value_counts fts
      let total := coded_df.base.length
      { counts := counts
        percentages := counts.map fun p => (p.1, (p.2 : ℚ) / (total : ℚ) * 100)
        total := total
        top_types := sortDescByCount counts }

/-- The function `axial.get_failure_examples`: the first `n` rows whose
`failure_type` equals the requested type; empty frame or missing column
gives the empty frame. -/
def get_failure_examples (coded_df : CodedFrame) (failure_type : String)
    (n : ℕ) : List FailRow :=
  match coded_df.cols.lookup "failure_type" with
  | none => []
  | some fts =>
    if coded_df.base.isEmpty then []
    else
      (((coded_df.base.zip fts).filter fun p => p.2 == failure_type).map
        fun p => p.1).take n

/-- Reference to a custom evaluator (the `module` and `class` entries of
a `custom_evaluators` YAML item, as consumed by
`runner._load_custom_evaluators`). -/
structure CustomEvaluatorConfig where
  module : String
  class_name : String
deriving Repr, DecidableEq

/-- Errors raised by `runner._load_custom_evaluators`. -/
inductive LoadError where
  | importError (msg : String)
  | attributeError (msg : String)
deriving Repr, DecidableEq

/-- A Python environment for dynamic resolution: module name to module,
module to attribute lookup. -/
def PyEnv : Type := String → Option (String → Option EvaluatorSpec)

/-- The function `runner._load_custom_evaluators`: resolve each reference
in order; a missing module re-raises `ImportError` and a missing class
symbol re-raises `AttributeError`, aborting the whole load. -/
def load_custom_evaluators (env : PyEnv) :
    List CustomEvaluatorConfig → Except LoadError (List EvaluatorSpec)
  | [] => .ok []
  | c :: rest =>
    match env c.module with
    | none => .error (.importError ("Could not import module " ++ c.module))
    | some m =>
      match m c.class_name with
      | none =>
        .error (.attributeError
          ("Could not find class " ++ c.class_name ++ " in module " ++ c.module))
      | some ev =>
        match load_custom_evaluators env rest with
        | .ok evs => .ok (ev :: evs)
        | .error e => .error e

/-- Top-level names defined by `company_eval_framework/config.py`. -/
def configModuleExports : List String :=
  ["AdapterConfig", "DatasetConfig", "ThresholdConfig", "EvalConfig",
   "load_eval_config"]

/-- Fields of the `EvalConfig` model in `config.py`. -/
def evalConfigFields : List String :=
  ["app_name", "app_type", "adapter", "dataset", "eval_suite", "thresholds"]

/-- Names pulled from `.config` by line 28 of `runner.py`. -/
def runnerConfigImports : List String :=
  ["EvalConfig", "ThresholdConfig", "CustomEvaluatorConfig", "load_eval_config"]

/-- Semantics of a Python `from m import a, b, c` statement against the
list of names `m` defines: the first name `m` does not define raises
`ImportError`. -/
def pythonFromImport (exports names : List String) : Except String Unit :=
  match names.find? fun n => !(exports.contains n) with
  | some n => .error ("cannot import name " ++ n)
  | none => .ok ()

/-- Concrete evaluator used as witness input (shape of the built-in
`hallucination` spec, with an abbreviated template). -/
def wEvalA : EvaluatorSpec :=
  { name := "hallucination"
    template := "tA"
    rails_map := [("factual", "factual"), ("hallucinated", "hallucinated")]
    input_columns := ["input", "output", "context"]
    positive_label := "factual" }

/-- Concrete evaluator used as witness input (shape of the built-in
`helpfulness_quality` spec, with an abbreviated template). -/
def wEvalB : EvaluatorSpec :=
  { name := "helpfulness_quality"
    template := "tB"
    rails_map := [("helpful", "helpful"), ("not_helpful", "not_helpful")]
    input_columns := ["input", "output"]
    positive_label := "helpful" }

/-- Witness judge whose every classify call succeeds. -/
def wJudgeOk : Judge String := fun template _rails rows =>
  if template = "tA" then .ok { labels := ["factual", "hallucinated"], explanations := none }
  else .ok { labels := rows.map fun _ => "helpful",
             explanations := some (rows.map fun _ => "ok") }

/-- Witness judge whose classify call for template `tA` raises and which
otherwise behaves like `wJudgeOk`. -/
def wJudgeFail : Judge String := fun template rails rows =>
  if template = "tA" then .error "API timeout"
  else wJudgeOk template rails rows

/-- Concrete failing rows used as witness inputs for axial coding. -/
def axialRow1 : FailRow := { input := "q1", output := "a1", context := some "c1" }

/-- Second concrete failing row (missing context). -/
def axialRow2 : FailRow := { input := "q2", output := "a2", context := none }

/-- Third concrete failing row. -/
def axialRow3 : FailRow := { input := "q3", output := "a3", context := some "c3" }

/-- Coded frame of the axial-coding scenario: three failing rows
classified as hallucination, hallucination, refusal. -/
def axialScenarioFrame : CodedFrame :=
  { base := [axialRow1, axialRow2, axialRow3]
    cols := [("failure_type", ["hallucination", "hallucination", "refusal"]),
             ("failure_type_explanation", ["", "", ""])] }

/-- Witness judge for axial coding whose classify call raises. -/
def wAxialJudgeErr : Judge FailRow := fun _ _ _ => .error "rate limit"

theorem computeMetricEntry_name (nm : String) (ms : ℚ)
    (th : Option ThresholdConfig) : (computeMetricEntry nm ms th).name = nm :=
  rfl

theorem computeMetricEntry_mean (nm : String) (ms : ℚ)
    (th : Option ThresholdConfig) : (computeMetricEntry nm ms th).mean = ms :=
  rfl

theorem computeMetricEntry_failure_rate (nm : String) (ms : ℚ)
    (th : Option ThresholdConfig) :
    (computeMetricEntry nm ms th).failure_rate = 1 - ms :=
  rfl

theorem computeMetricEntry_no_threshold (nm : String) (ms : ℚ) :
    computeMetricEntry nm ms none =
      { name := nm, mean := ms, failure_rate := 1 - ms,
        threshold_type := none, threshold_value := none, passed := true } :=
  rfl

theorem computeMetricEntry_max_only (nm : String) (ms m : ℚ) :
    computeMetricEntry nm ms (some { max_mean := some m, min_mean := none }) =
      { name := nm, mean := ms, failure_rate := 1 - ms,
        threshold_type := some "max", threshold_value := some m,
        passed := decide (1 - ms ≤ m) } :=
  rfl

theorem computeMetricEntry_min_only (nm : String) (ms m : ℚ) :
    computeMetricEntry nm ms (some { max_mean := none, min_mean := some m }) =
      { name := nm, mean := ms, failure_rate := 1 - ms,
        threshold_type := some "min", threshold_value := some m,
        passed := decide (ms ≥ m) } :=
  rfl

theorem computeMetricEntry_both_bounds (nm : String) (ms mx mn : ℚ) :
    computeMetricEntry nm ms
        (some { max_mean := some mx, min_mean := some mn }) =
      { name := nm, mean := ms, failure_rate := 1 - ms,
        threshold_type := some "min", threshold_value := some mn,
        passed := decide (1 - ms ≤ mx) && decide (ms ≥ mn) } :=
  rfl

theorem mem_compute_metrics {names : List String}
    {frame : List (String × List ℚ)} {ths : List (String × ThresholdConfig)}
    {r : MetricResult} :
    r ∈ compute_metrics names frame ths ↔
      ∃ nm ∈ names, ∃ scores,
        frame.lookup (nm ++ "_score") = some scores ∧
        r = computeMetricEntry nm (dfMean scores) (ths.lookup nm) := by
  simp only [compute_metrics, List.mem_filterMap, Option.map_eq_some']
  constructor
  · rintro ⟨nm, hnm, scores, hl, rfl⟩
    exact ⟨nm, hnm, scores, hl, rfl⟩
  · rintro ⟨nm, hnm, scores, hl, rfl⟩
    exact ⟨nm, hnm, scores, hl, rfl⟩

/-- C1: for every metric with a configured `ThresholdConfig`,
`compute_metrics` decides `passed` as follows: with only `max_mean = m`,
passed iff `(1 - mean_score) ≤ m` (boundary inclusive); with only
`min_mean = m`, passed iff `mean_score ≥ m`; with both bounds, passed iff
both conditions hold. -/
theorem compute_metrics_threshold_decision
    (names : List String) (frame : List (String × List ℚ))
    (ths : List (String × ThresholdConfig)) (r : MetricResult)
    (hr : r ∈ compute_metrics names frame ths)
    (t : ThresholdConfig) (ht : ths.lookup r.name = some t) :
    (∀ m, t.max_mean = some m → t.min_mean = none →
        (r.passed = true ↔ 1 - r.mean ≤ m)) ∧
    (∀ m, t.min_mean = some m → t.max_mean = none →
        (r.passed = true ↔ r.mean ≥ m)) ∧
    (∀ mx mn, t.max_mean = some mx → t.min_mean = some mn →
        (r.passed = true ↔ (1 - r.mean ≤ mx ∧ r.mean ≥ mn))) := by
  rcases mem_compute_metrics.1 hr with ⟨nm, _, scores, _, rfl⟩
  rw [computeMetricEntry_name] at ht
  obtain ⟨tmax, tmin⟩ := t
  refine ⟨?_, ?_, ?_⟩
  · intro m hmax hmin
    simp only at hmax hmin
    subst hmax; subst hmin
    simp [ht, computeMetricEntry_max_only, computeMetricEntry_mean]
  · intro m hmin hmax
    simp only at hmax hmin
    subst hmax; subst hmin
    simp [ht, computeMetricEntry_min_only, computeMetricEntry_mean]
  · intro mx mn hmax hmin
    simp only at hmax hmin
    subst hmax; subst hmin
    simp [ht, computeMetricEntry_both_bounds, computeMetricEntry_mean]

/-- Scenario witness for C1 (simple_chat, single metric, max bound):
5 records, 4 of 5 positive, `mean_score = 0.8`, `failure_rate = 0.2`,
threshold `max_mean = 0.2`: the metric passes, boundary inclusive. -/
theorem compute_metrics_threshold_decision_witness :
    (computeMetricEntry "user_frustration" (dfMean [1, 1, 1, 1, 0])
        (some { max_mean := some (1/5), min_mean := none })).passed = true ∧
    (computeMetricEntry "user_frustration" (dfMean [1, 1, 1, 1, 0])
        (some { max_mean := some (1/5), min_mean := none })).failure_rate
      = 1/5 := by
  have h := compute_metrics_threshold_decision ["user_frustration"]
      [("user_frustration_score", [1, 1, 1, 1, 0])]
      [("user_frustration", { max_mean := some (1/5), min_mean := none })]
      (computeMetricEntry "user_frustration" (dfMean [1, 1, 1, 1, 0])
        (some { max_mean := some (1/5), min_mean := none }))
      (mem_compute_metrics.2
        ⟨"user_frustration", by simp, [1, 1, 1, 1, 0], by decide, rfl⟩)
      { max_mean := some (1/5), min_mean := none } rfl
  constructor
  · rw [(h.1 (1/5) rfl rfl)]
    rw [computeMetricEntry_mean]
    simp [dfMean]
    norm_num
  · rw [computeMetricEntry_failure_rate]
    simp [dfMean]
    norm_num

theorem print_metric_summary_foldl (rs : List MetricResult) (b : Bool) :
    rs.foldl (fun all_passed m => if !m.passed then false else all_passed) b
      = (b && rs.all fun m => m.passed) := by
  induction rs generalizing b with
  | nil => simp
  | cons m rs ih =>
    simp only [List.foldl_cons, List.all_cons, ih]
    cases hm : m.passed <;> simp [hm, Bool.and_assoc]

theorem print_metric_summary_eq_all (rs : List MetricResult) :
    print_metric_summary rs = rs.all fun m => m.passed := by
  simpa [print_metric_summary] using print_metric_summary_foldl rs true

/-- C2: the overall `passed` flag returned by `print_metric_summary` is
the AND of the `passed` fields of all computed metric results, and a
metric with no threshold entry is still reported, with unset
`threshold_type` and `threshold_value` but `passed = True`, so it can
never fail the run. -/
theorem overall_passed_and_of_all_metrics
    (names : List String) (frame : List (String × List ℚ))
    (ths : List (String × ThresholdConfig)) :
    (print_metric_summary (compute_metrics names frame ths)
        = (compute_metrics names frame ths).all fun m => m.passed) ∧
    ∀ r ∈ compute_metrics names frame ths, ths.lookup r.name = none →
      r.threshold_type = none ∧ r.threshold_value = none ∧
      r.passed = true := by
  refine ⟨print_metric_summary_eq_all _, ?_⟩
  intro r hr hnone
  rcases mem_compute_metrics.1 hr with ⟨nm, _, scores, _, rfl⟩
  rw [computeMetricEntry_name] at hnone
  simp [hnone, computeMetricEntry_no_threshold]

/-- Witness for C2: a metric whose every score fails but which has no
threshold entry is reported and the overall run still passes. -/
theorem overall_passed_and_of_all_metrics_witness :
    print_metric_summary (compute_metrics ["helpfulness_quality"]
        [("helpfulness_quality_score", [0, 0])] []) = true ∧
    (computeMetricEntry "helpfulness_quality" (dfMean [0, 0])
        none).threshold_type = none := by
  have h := overall_passed_and_of_all_metrics ["helpfulness_quality"]
      [("helpfulness_quality_score", [0, 0])] []
  have hmem :
      computeMetricEntry "helpfulness_quality" (dfMean [0, 0])
          (List.lookup "helpfulness_quality"
            ([] : List (String × ThresholdConfig)))
        ∈ compute_metrics ["helpfulness_quality"]
            [("helpfulness_quality_score", [0, 0])] [] :=
    mem_compute_metrics.2
      ⟨"helpfulness_quality", by simp, [0, 0], by decide, rfl⟩
  have h2 := h.2 _ hmem (by rw [computeMetricEntry_name]; rfl)
  refine ⟨?_, ?_⟩
  · rw [h.1]
    decide
  · exact h2.1

/-- C10: when both `max_mean` and `min_mean` are set, `compute_metrics`
checks both bounds for `passed`, but the reported metadata reflects only
the min bound: `threshold_type = "min"` and `threshold_value = min_mean`,
because the min branch overwrites the values set by the max branch. -/
theorem compute_metrics_both_bounds_min_metadata
    (names : List String) (frame : List (String × List ℚ))
    (ths : List (String × ThresholdConfig)) (r : MetricResult)
    (hr : r ∈ compute_metrics names frame ths)
    (t : ThresholdConfig) (ht : ths.lookup r.name = some t)
    (mx mn : ℚ) (hmx : t.max_mean = some mx) (hmn : t.min_mean = some mn) :
    r.threshold_type = some "min" ∧ r.threshold_value = some mn ∧
    (r.passed = true ↔ (1 - r.mean ≤ mx ∧ mn ≤ r.mean)) := by
  rcases mem_compute_metrics.1 hr with ⟨nm, _, scores, _, rfl⟩
  rw [computeMetricEntry_name] at ht
  obtain ⟨tmax, tmin⟩ := t
  simp only at hmx hmn
  subst hmx; subst hmn
  simp [ht, computeMetricEntry_both_bounds, computeMetricEntry_mean,
    and_comm]

/-- Witness for C10: a metric with both bounds set reports
`threshold_type = "min"`, `threshold_value = min_mean`, yet its `passed`
decision still uses both bounds. -/
theorem compute_metrics_both_bounds_min_metadata_witness :
    (computeMetricEntry "document_relevance" (dfMean [1, 1, 1, 0])
        (some { max_mean := some (1/2), min_mean := some (1/2) })).threshold_type
        = some "min" ∧
    (computeMetricEntry "document_relevance" (dfMean [1, 1, 1, 0])
        (some { max_mean := some (1/2), min_mean := some (1/2) })).threshold_value
        = some (1/2) ∧
    (computeMetricEntry "document_relevance" (dfMean [1, 1, 1, 0])
        (some { max_mean := some (1/2), min_mean := some (1/2) })).passed
        = true := by
  have h := compute_metrics_both_bounds_min_metadata ["document_relevance"]
      [("document_relevance_score", [1, 1, 1, 0])]
      [("document_relevance", { max_mean := some (1/2), min_mean := some (1/2) })]
      (computeMetricEntry "document_relevance" (dfMean [1, 1, 1, 0])
        (some { max_mean := some (1/2), min_mean := some (1/2) }))
      (mem_compute_metrics.2
        ⟨"document_relevance", by simp, [1, 1, 1, 0], by decide, rfl⟩)
      { max_mean := some (1/2), min_mean := some (1/2) } rfl
      (1/2) (1/2) rfl rfl
  refine ⟨h.1, h.2.1, ?_⟩
  rw [h.2.2, computeMetricEntry_mean]
  simp [dfMean]
  norm_num

/-- C3: per-evaluator failure isolation in `run_evaluations`: the columns
produced for an evaluator depend only on that evaluator's own classify
call, so if one evaluator's call raises, every other evaluator's label,
score and explanation columns equal those of a run in which the failing
call never failed; the run continues and still produces one column
group per evaluator. -/
theorem run_evaluations_isolation {α : Type} (df : List α)
    (evs : List EvaluatorSpec) (j j' : Judge α) (failing : EvaluatorSpec)
    (hagree : ∀ ev ∈ evs, ev ≠ failing →
        j ev.template ev.rails df = j' ev.template ev.rails df) :
    (run_evaluations df evs j).1 = (run_evaluations df evs j').1 ∧
    (run_evaluations df evs j).2.length = evs.length ∧
    ∀ (i : ℕ) (ev : EvaluatorSpec), evs[i]? = some ev → ev ≠ failing →
      ((run_evaluations df evs j).2)[i]? =
        ((run_evaluations df evs j').2)[i]? := by
  refine ⟨rfl, by simp [run_evaluations], ?_⟩
  intro i ev hi hne
  have hmem : ev ∈ evs := List.getElem?_mem hi
  simp only [run_evaluations, List.getElem?_map, hi, Option.map_some']
  rw [hagree ev hmem hne]

/-- Witness for C3: with judge `wJudgeFail` the call for `wEvalA` raises,
yet the column group of `wEvalB` is identical to the run under
`wJudgeOk`, where no call fails. -/
theorem run_evaluations_isolation_witness :
    ((run_evaluations ["r0"] [wEvalA, wEvalB] wJudgeFail).2)[1]? =
      ((run_evaluations ["r0"] [wEvalA, wEvalB] wJudgeOk).2)[1]? ∧
    wJudgeFail wEvalA.template wEvalA.rails ["r0"] = .error "API timeout" := by
  have h := run_evaluations_isolation ["r0"] [wEvalA, wEvalB] wJudgeFail
      wJudgeOk wEvalA ?_
  · refine ⟨h.2.2 1 wEvalB rfl (by decide), rfl⟩
  · intro ev hev hne
    rcases List.mem_cons.1 hev with rfl | hev
    · exact absurd rfl hne
    · rcases List.mem_cons.1 hev with rfl | hev
      · rfl
      · simp at hev

/-- C4: the score written by `run_evaluations` for a record is 1.0 when
the judge's label equals the evaluator's `positive_label` and 0.0 for
any other label; when the classify call for an evaluator raises, every
record's label for it is `"error"`, its score is 0.0, and its
explanation is the exception text. -/
theorem run_evaluations_scoring {α : Type} (df : List α)
    (evs : List EvaluatorSpec) (j : Judge α) (i : ℕ) (ev : EvaluatorSpec)
    (hi : evs[i]? = some ev) :
    (∀ res, j ev.template ev.rails df = .ok res →
        ∃ cols, ((run_evaluations df evs j).2)[i]? = some (ev.name, cols) ∧
          cols.label = res.labels ∧
          ∀ (k : ℕ) (l : String), res.labels[k]? = some l →
            cols.score[k]? =
              some (if l = ev.positive_label then (1 : ℚ) else 0)) ∧
    (∀ e, j ev.template ev.rails df = .error e →
        ((run_evaluations df evs j).2)[i]? = some (ev.name,
          { label := df.map fun _ => "error"
            score := df.map fun _ => (0 : ℚ)
            explanation := df.map fun _ => e })) := by
  constructor
  · intro res hres
    refine ⟨{ label := res.labels
              score := res.labels.map fun l =>
                if l = ev.positive_label then (1 : ℚ) else 0
              explanation :=
                match res.explanations with
                | some ex => ex
                | none => df.map fun _ => "" }, ?_, rfl, ?_⟩
    · simp only [run_evaluations, List.getElem?_map, hi, Option.map_some',
        hres]
    · intro k l hk
      simp [List.getElem?_map, hk]
  · intro e herr
    simp only [run_evaluations, List.getElem?_map, hi, Option.map_some',
      herr]

/-- Witness for C4: a successful call labels two records `factual` and
`hallucinated` against positive label `factual`, scoring 1.0 and 0.0; a
raising call gives every record label `"error"`, score 0.0 and the
exception text. -/
theorem run_evaluations_scoring_witness :
    (((run_evaluations ["r0", "r1"] [wEvalA] wJudgeOk).2)[0]?).map
        (fun p => (p.2.label, p.2.score[0]?, p.2.score[1]?)) =
      some (["factual", "hallucinated"], some 1, some 0) ∧
    ((run_evaluations ["r0", "r1"] [wEvalA] wJudgeFail).2)[0]? =
      some ("hallucination",
        { label := ["error", "error"], score := [0, 0],
          explanation := ["API timeout", "API timeout"] }) := by
  have h := run_evaluations_scoring ["r0", "r1"] [wEvalA] wJudgeOk 0 wEvalA
      rfl
  have h' := run_evaluations_scoring ["r0", "r1"] [wEvalA] wJudgeFail 0 wEvalA
      rfl
  constructor
  · obtain ⟨cols, hc, hl, hs⟩ :=
      h.1 { labels := ["factual", "hallucinated"], explanations := none }
        rfl
    have h0 := hs 0 "factual" rfl
    have h1 := hs 1 "hallucinated" rfl
    rw [hc, Option.map_some']
    simp only [hl, h0, h1]
    decide
  · have he := h'.2 "API timeout" rfl
    rw [he]
    rfl

theorem lookup_cons_unfold {β : Type} (a k : String) (b : β)
    (l : List (String × β)) :
    List.lookup a ((k, b) :: l) = if a == k then some b else List.lookup a l := by
  simp only [List.lookup]
  cases h : a == k <;> simp

theorem exists_mem_of_lookup_eq_some {β : Type} {k : String} {v : β} :
    ∀ {l : List (String × β)}, l.lookup k = some v → ∃ kk, (kk, v) ∈ l := by
  intro l
  induction l with
  | nil => intro h; simp [List.lookup] at h
  | cons p l ih =>
    intro h
    obtain ⟨a, b⟩ := p
    rw [lookup_cons_unfold] at h
    split at h
    · injection h with h
      subst h
      exact ⟨a, List.mem_cons_self _ _⟩
    · obtain ⟨kk, hm⟩ := ih h
      exact ⟨kk, List.mem_cons_of_mem _ hm⟩

theorem maskStep_length (cols : List (String × List ℚ)) (n : ℕ)
    (hlen : ∀ p ∈ cols, p.2.length = n)
    (mask : List Bool) (hm : mask.length = n) (ev : EvaluatorSpec) :
    (maskStep cols mask ev).length = n := by
  simp only [maskStep]
  split
  case _ scores heq =>
    obtain ⟨kk, hmem⟩ := exists_mem_of_lookup_eq_some heq
    simp [List.length_zipWith, hm, hlen _ hmem]
  case _ heq => exact hm

theorem foldl_maskStep_length (cols : List (String × List ℚ)) (n : ℕ)
    (hlen : ∀ p ∈ cols, p.2.length = n) :
    ∀ (evals : List EvaluatorSpec) (mask : List Bool), mask.length = n →
      (evals.foldl (maskStep cols) mask).length = n := by
  intro evals
  induction evals with
  | nil => intro mask hm; simpa using hm
  | cons ev evals ih =>
    intro mask hm
    rw [List.foldl_cons]
    exact ih _ (maskStep_length cols n hlen mask hm ev)

theorem maskStep_getElem (cols : List (String × List ℚ)) (n : ℕ)
    (hlen : ∀ p ∈ cols, p.2.length = n) (i : ℕ) (hi : i < n)
    (mask : List Bool) (hm : mask.length = n) (ev : EvaluatorSpec) :
    ((maskStep cols mask ev)[i]? = some true ↔
      (mask[i]? = some true ∨ ∃ scores,
        cols.lookup (ev.name ++ "_score") = some scores ∧
        ∃ q, scores[i]? = some q ∧ q < 1)) := by
  simp only [maskStep]
  split
  case _ scores heq =>
    obtain ⟨kk, hmem⟩ := exists_mem_of_lookup_eq_some heq
    have hsl : scores.length = n := hlen _ hmem
    rw [List.getElem?_zipWith_eq_some]
    simp only [heq, Option.some.injEq]
    constructor
    · rintro ⟨x, y, hx, hy, hxy⟩
      rcases Bool.or_eq_true_iff.1 hxy with hx1 | hy1
      · subst hx1
        exact Or.inl hx
      · exact Or.inr ⟨scores, rfl, y, hy, of_decide_eq_true hy1⟩
    · rintro (hx | ⟨scores', hss, q, hq, hlt⟩)
      · refine ⟨true, scores.get ⟨i, hsl ▸ hi⟩, hx, ?_, by simp⟩
        simp [List.getElem?_eq_getElem (hsl ▸ hi)]
      · subst hss
        refine ⟨mask.get ⟨i, hm ▸ hi⟩, q, ?_, hq, ?_⟩
        · simp [List.getElem?_eq_getElem (hm ▸ hi)]
        · simp [hlt]
  case _ heq =>
    simp [heq]

theorem foldl_maskStep_spec (cols : List (String × List ℚ)) (n : ℕ)
    (hlen : ∀ p ∈ cols, p.2.length = n) (i : ℕ) (hi : i < n) :
    ∀ (evals : List EvaluatorSpec) (mask : List Bool), mask.length = n →
      ((evals.foldl (maskStep cols) mask)[i]? = some true ↔
        (mask[i]? = some true ∨ ∃ ev ∈ evals, ∃ scores,
          cols.lookup (ev.name ++ "_score") = some scores ∧
          ∃ q, scores[i]? = some q ∧ q < 1)) := by
  intro evals
  induction evals with
  | nil => intro mask hm; simp
  | cons ev evals ih =>
    intro mask hm
    rw [List.foldl_cons, ih _ (maskStep_length cols n hlen mask hm ev),
      maskStep_getElem cols n hlen i hi mask hm ev,
      List.exists_mem_cons_iff, or_assoc]

theorem mem_boolIndex_range {n : ℕ} {mask : List Bool} (hm : mask.length = n)
    {i : ℕ} :
    i ∈ boolIndex (List.range n) mask ↔ mask[i]? = some true := by
  unfold boolIndex
  rw [List.mem_map]
  constructor
  · rintro ⟨⟨a, b⟩, hp, rfl⟩
    rw [List.mem_filter] at hp
    obtain ⟨hz, hb⟩ := hp
    have hb' : b = true := by simpa using hb
    subst hb'
    rw [List.mem_iff_getElem?] at hz
    obtain ⟨k, hk⟩ := hz
    rw [List.getElem?_zip_eq_some] at hk
    obtain ⟨hr, hmk⟩ := hk
    by_cases hkn : k < n
    · rw [List.getElem?_range hkn] at hr
      injection hr with hr
      subst hr
      exact hmk
    · rw [List.getElem?_eq_none
        (by simpa using Nat.le_of_not_lt hkn)] at hr
      cases hr
  · intro hmi
    have hil : i < mask.length := by
      by_contra hge
      rw [List.getElem?_eq_none (Nat.le_of_not_lt hge)] at hmi
      cases hmi
    have hin : i < n := hm ▸ hil
    refine ⟨(i, true), ?_, rfl⟩
    rw [List.mem_filter]
    refine ⟨?_, by simp⟩
    rw [List.mem_iff_getElem?]
    refine ⟨i, ?_⟩
    rw [List.getElem?_zip_eq_some]
    exact ⟨List.getElem?_range hin, hmi⟩

/-- C5: the failing subset handed to the failure classifier contains
exactly the rows with at least one failing score: row `i` is selected by
the failure mask iff some evaluator in the suite has a `<name>_score`
column whose value at `i` is strictly below 1.0. -/
theorem failing_subset_correct (evals : List EvaluatorSpec)
    (cols : List (String × List ℚ)) (n : ℕ)
    (hlen : ∀ p ∈ cols, p.2.length = n) (i : ℕ) (hi : i < n) :
    (i ∈ boolIndex (List.range n) (failure_mask evals cols n) ↔
      ∃ ev ∈ evals, ∃ scores,
        cols.lookup (ev.name ++ "_score") = some scores ∧
        ∃ q, scores[i]? = some q ∧ q < 1) := by
  have hml : (failure_mask evals cols n).length = n :=
    foldl_maskStep_length cols n hlen evals _ (by simp)
  rw [mem_boolIndex_range hml, failure_mask,
    foldl_maskStep_spec cols n hlen i hi evals _ (by simp)]
  simp [List.getElem?_replicate, hi]

/-- Witness for C5: with scores `hallucination = [1, 0]` and
`helpfulness_quality = [1, 1]` over two rows, row 1 is in the failing
subset. -/
theorem failing_subset_correct_witness :
    1 ∈ boolIndex (List.range 2)
      (failure_mask [wEvalA, wEvalB]
        [("hallucination_score", [1, 0]), ("helpfulness_quality_score", [1, 1])]
        2) := by
  have h := failing_subset_correct [wEvalA, wEvalB]
      [("hallucination_score", [1, 0]), ("helpfulness_quality_score", [1, 1])]
      2 ?_ 1 (by norm_num)
  · refine h.2 ⟨wEvalA, by simp, [1, 0], rfl, 0, rfl, by norm_num⟩
  · intro p hp
    rcases List.mem_cons.1 hp with rfl | hp
    · rfl
    · rcases List.mem_cons.1 hp with rfl | hp
      · rfl
      · simp at hp

/-- C6 (code defect): line 28 of `runner.py` pulls
`CustomEvaluatorConfig` out of `.config`, but `config.py` defines no
such name and its `EvalConfig` model has no `custom_evaluators` field,
so importing the runner module raises `ImportError` before anything
runs; `_load_custom_evaluators` itself, as written, does make a
resolution failure fatal (a missing module aborts the whole load). -/
theorem runner_config_import_fails :
    pythonFromImport configModuleExports runnerConfigImports
        = .error "cannot import name CustomEvaluatorConfig" ∧
    "CustomEvaluatorConfig" ∉ configModuleExports ∧
    "custom_evaluators" ∉ evalConfigFields ∧
    load_custom_evaluators (fun _ => none)
        [{ module := "m", class_name := "C" }]
      = .error (.importError "Could not import module m") :=
  ⟨rfl, by decide, by decide, rfl⟩

theorem map_const_comp {α β γ : Type} (f : α → β) (c : γ) (l : List α) :
    l.map ((fun _ => c) ∘ f) = List.replicate l.length c := by
  induction l with
  | nil => rfl
  | cons x l ih => simp [ih, List.replicate_succ]

/-- C7: if the axial-coding classification call raises for the batch,
`run_axial_coding` does not propagate the exception: the returned frame
still contains all input rows (context-filled) and every row receives
`failure_type = "other"` with the exception text embedded in
`failure_type_explanation`. -/
theorem run_axial_coding_error_path (llm : Judge FailRow)
    (failures_df : List FailRow) (e : String)
    (hne : failures_df ≠ [])
    (herr : llm build_failure_type_classifier.1
        build_failure_type_classifier.2 (failures_df.map fillContext)
        = .error e) :
    (run_axial_coding llm failures_df).base = failures_df.map fillContext ∧
    (run_axial_coding llm failures_df).base.length = failures_df.length ∧
    (run_axial_coding llm failures_df).cols.lookup "failure_type"
        = some (List.replicate failures_df.length "other") ∧
    (run_axial_coding llm failures_df).cols.lookup "failure_type_explanation"
        = some (List.replicate failures_df.length
            ("Classification error: " ++ e)) := by
  have hne' : failures_df.isEmpty = false := by
    cases failures_df
    · exact absurd rfl hne
    · rfl
  have hbe : ("failure_type_explanation" == "failure_type") = false := by
    decide
  simp [run_axial_coding, hne', herr, lookup_cons_unfold, hbe,
    map_const_comp, List.map_const']

/-- Witness for C7: a judge whose classify call raises with
`"rate limit"` yields, on two failing rows, the broadcast `other`
labels, the embedded exception text, and both rows preserved. -/
theorem run_axial_coding_error_path_witness :
    (run_axial_coding wAxialJudgeErr [axialRow1, axialRow2]).cols.lookup
        "failure_type" = some ["other", "other"] ∧
    (run_axial_coding wAxialJudgeErr [axialRow1, axialRow2]).cols.lookup
        "failure_type_explanation"
      = some ["Classification error: rate limit",
              "Classification error: rate limit"] ∧
    (run_axial_coding wAxialJudgeErr [axialRow1, axialRow2]).base.length
      = 2 := by
  have h := run_axial_coding_error_path wAxialJudgeErr [axialRow1, axialRow2]
      "rate limit" (by simp) rfl
  refine ⟨?_, ?_, ?_⟩
  · rw [h.2.2.1]
    rfl
  · rw [h.2.2.2]
    rfl
  · rw [h.2.1]
    rfl

/-- C8: on an empty failing set, `run_axial_coding` short-circuits: the
result is the empty frame that still carries the `failure_type` and
`failure_type_explanation` columns, and it does not depend on the judge,
which is therefore never invoked. -/
theorem run_axial_coding_empty_short_circuit (llm llm' : Judge FailRow) :
    run_axial_coding llm [] =
      { base := []
        cols := [("failure_type", []), ("failure_type_explanation", [])] } ∧
    run_axial_coding llm [] = run_axial_coding llm' [] :=
  ⟨rfl, rfl⟩

theorem mem_insertDescByCount (x a : String × ℕ) (l : List (String × ℕ)) :
    x ∈ insertDescByCount a l ↔ x = a ∨ x ∈ l := by
  induction l with
  | nil => simp [insertDescByCount]
  | cons y ys ih =>
    simp only [insertDescByCount]
    split
    · rw [List.mem_cons, ih, List.mem_cons]
      tauto
    · rw [List.mem_cons, List.mem_cons]

theorem mem_sortDescByCount (x : String × ℕ) (l : List (String × ℕ)) :
    x ∈ sortDescByCount l ↔ x ∈ l := by
  induction l with
  | nil => simp [sortDescByCount]
  | cons y ys ih =>
    simp only [sortDescByCount]
    rw [mem_insertDescByCount, ih, List.mem_cons]

theorem mem_dedupAux (y : String) :
    ∀ (l seen : List String), y ∈ dedupAux seen l ↔ (y ∈ l ∧ y ∉ seen) := by
  intro l
  induction l with
  | nil => intro seen; simp [dedupAux]
  | cons x xs ih =>
    intro seen
    simp only [dedupAux]
    split
    case _ hx =>
      rw [ih seen, List.mem_cons]
      constructor
      · rintro ⟨hy, hs⟩
        exact ⟨Or.inr hy, hs⟩
      · rintro ⟨hy | hy, hs⟩
        · subst hy
          exact absurd hx hs
        · exact ⟨hy, hs⟩
    case _ hx =>
      rw [List.mem_cons, ih (x :: seen), List.mem_cons, List.mem_cons]
      by_cases hyx : y = x
      · subst hyx
        simp [hx]
      · simp [hyx]

theorem mem_firstDedup (y : String) (l : List String) :
    y ∈ firstDedup l ↔ y ∈ l := by
  rw [firstDedup, mem_dedupAux]
  simp

theorem mem_value_counts {k : String} {v : ℕ} {l : List String} :
    (k, v) ∈ value_counts l ↔ (k ∈ l ∧ v = l.count k) := by
  rw [value_counts, mem_sortDescByCount, List.mem_map]
  constructor
  · rintro ⟨x, hx, heq⟩
    injection heq with h1 h2
    subst h1
    subst h2
    exact ⟨(mem_firstDedup _ _).1 hx, rfl⟩
  · rintro ⟨hk, rfl⟩
    exact ⟨k, (mem_firstDedup _ _).2 hk, rfl⟩

theorem filter_insertDescByCount (c : ℕ) (x : String × ℕ)
    (l : List (String × ℕ)) :
    (insertDescByCount x l).filter (fun p => p.2 == c)
      = if x.2 = c then x :: l.filter (fun p => p.2 == c)
        else l.filter (fun p => p.2 == c) := by
  induction l with
  | nil =>
    by_cases hx : x.2 = c <;> simp [insertDescByCount, hx]
  | cons y ys ih =>
    simp only [insertDescByCount]
    split
    case _ hgt =>
      rw [List.filter_cons, List.filter_cons, ih]
      by_cases hy : y.2 = c
      · have hx : ¬x.2 = c := by omega
        simp [hy, hx]
      · by_cases hx : x.2 = c <;> simp [hy, hx]
    case _ hle =>
      by_cases hx : x.2 = c <;> simp [List.filter_cons, hx]

theorem filter_sortDescByCount (c : ℕ) (l : List (String × ℕ)) :
    (sortDescByCount l).filter (fun p => p.2 == c)
      = l.filter (fun p => p.2 == c) := by
  induction l with
  | nil => rfl
  | cons x xs ih =>
    simp only [sortDescByCount]
    rw [filter_insertDescByCount, List.filter_cons]
    by_cases hx : x.2 = c <;> simp [hx, ih]

theorem insertDescByCount_sorted (x : String × ℕ) (l : List (String × ℕ))
    (hl : l.Pairwise fun a b => b.2 ≤ a.2) :
    (insertDescByCount x l).Pairwise fun a b => b.2 ≤ a.2 := by
  induction l with
  | nil => simp [insertDescByCount]
  | cons y ys ih =>
    rw [List.pairwise_cons] at hl
    obtain ⟨hy, hys⟩ := hl
    simp only [insertDescByCount]
    split
    case _ hgt =>
      rw [List.pairwise_cons]
      refine ⟨?_, ih hys⟩
      intro z hz
      rcases (mem_insertDescByCount z x ys).1 hz with rfl | hz
      · omega
      · exact hy z hz
    case _ hle =>
      rw [List.pairwise_cons]
      refine ⟨?_, List.pairwise_cons.2 ⟨hy, hys⟩⟩
      intro z hz
      rcases List.mem_cons.1 hz with rfl | hz
      · omega
      · exact le_trans (hy z hz) (Nat.le_of_not_lt hle)

theorem sortDescByCount_sorted (l : List (String × ℕ)) :
    (sortDescByCount l).Pairwise fun a b => b.2 ≤ a.2 := by
  induction l with
  | nil => simp [sortDescByCount]
  | cons x xs ih => exact insertDescByCount_sorted x _ ih

theorem head?_filter {α : Type} (p : α → Bool) (l : List α) :
    (l.filter p).head? = l.find? p := by
  induction l with
  | nil => rfl
  | cons x l ih =>
    rw [List.filter_cons]
    cases hp : p x <;> simp [hp, ih, List.find?_cons]

theorem head?_take_one {α : Type} (l : List α) :
    (l.take 1).head? = l.head? := by
  cases l <;> rfl

theorem summarize_failure_types_eq (coded : CodedFrame) (fts : List String)
    (hcol : coded.cols.lookup "failure_type" = some fts)
    (hne : coded.base ≠ []) :
    summarize_failure_types coded =
      { counts := value_counts fts
        percentages := (value_counts fts).map fun p =>
          (p.1, (p.2 : ℚ) / (coded.base.length : ℚ) * 100)
        total := coded.base.length
        top_types := sortDescByCount (value_counts fts) } := by
  have hne' : coded.base.isEmpty = false := by
    cases hb : coded.base
    · exact absurd hb hne
    · rfl
  simp [summarize_failure_types, hcol, hne']

theorem get_failure_examples_eq (coded : CodedFrame) (fts : List String)
    (hcol : coded.cols.lookup "failure_type" = some fts)
    (hne : coded.base ≠ []) (t : String) (n : ℕ) :
    get_failure_examples coded t n
      = (((coded.base.zip fts).filter fun p => p.2 == t).map
          fun p => p.1).take n := by
  have hne' : coded.base.isEmpty = false := by
    cases hb : coded.base
    · exact absurd hb hne
    · rfl
  simp [get_failure_examples, hcol, hne']

/-- C9: `summarize_failure_types` returns counts mapping each failure
type to its number of occurrences, percentages `count / total * 100`,
total the number of coded rows, and `top_types` sorted by descending
count with ties in discovery order (for every count value, the keys
carrying it appear exactly in first-occurrence order); on the scenario
{hallucination, hallucination, refusal} it returns
`top_types = [(hallucination, 2), (refusal, 1)]` and exact percentages
200/3 and 100/3, whose one-decimal displays are 66.7 and 33.3; and
`get_failure_examples` with `n = 1` returns the first-occurring example
of the requested type. -/
theorem summarize_failure_types_spec :
    (∀ (coded : CodedFrame) (fts : List String),
      coded.cols.lookup "failure_type" = some fts → coded.base ≠ [] →
      ((summarize_failure_types coded).total = coded.base.length ∧
       (∀ (k : String) (v : ℕ),
         (k, v) ∈ (summarize_failure_types coded).counts ↔
           (k ∈ fts ∧ v = fts.count k)) ∧
       (summarize_failure_types coded).percentages
         = (summarize_failure_types coded).counts.map
             (fun p => (p.1,
               (p.2 : ℚ) / ((summarize_failure_types coded).total : ℚ) * 100)) ∧
       ((summarize_failure_types coded).top_types.Pairwise
         fun a b => b.2 ≤ a.2) ∧
       (∀ c : ℕ,
         (summarize_failure_types coded).top_types.filter (fun p => p.2 == c)
           = ((firstDedup fts).filter fun x => fts.count x == c).map
               fun x => (x, fts.count x)) ∧
       (∀ t : String, (get_failure_examples coded t 1).head?
         = ((coded.base.zip fts).find? fun p => p.2 == t).map
             fun p => p.1))) ∧
    (summarize_failure_types axialScenarioFrame).top_types
      = [("hallucination", 2), ("refusal", 1)] ∧
    (summarize_failure_types axialScenarioFrame).percentages
      = [("hallucination", 200/3), ("refusal", 100/3)] ∧
    round ((200 : ℚ)/3 * 10) = 667 ∧ round ((100 : ℚ)/3 * 10) = 333 ∧
    get_failure_examples axialScenarioFrame "hallucination" 1
      = [axialRow1] := by
  have hmain : ∀ (coded : CodedFrame) (fts : List String),
      coded.cols.lookup "failure_type" = some fts → coded.base ≠ [] →
      ((summarize_failure_types coded).total = coded.base.length ∧
       (∀ (k : String) (v : ℕ),
         (k, v) ∈ (summarize_failure_types coded).counts ↔
           (k ∈ fts ∧ v = fts.count k)) ∧
       (summarize_failure_types coded).percentages
         = (summarize_failure_types coded).counts.map
             (fun p => (p.1,
               (p.2 : ℚ) / ((summarize_failure_types coded).total : ℚ) * 100)) ∧
       ((summarize_failure_types coded).top_types.Pairwise
         fun a b => b.2 ≤ a.2) ∧
       (∀ c : ℕ,
         (summarize_failure_types coded).top_types.filter (fun p => p.2 == c)
           = ((firstDedup fts).filter fun x => fts.count x == c).map
               fun x => (x, fts.count x)) ∧
       (∀ t : String, (get_failure_examples coded t 1).head?
         = ((coded.base.zip fts).find? fun p => p.2 == t).map
             fun p => p.1)) := by
    intro coded fts hcol hne
    rw [summarize_failure_types_eq coded fts hcol hne]
    refine ⟨rfl, ?_, rfl, ?_, ?_, ?_⟩
    · intro k v
      exact mem_value_counts
    · exact sortDescByCount_sorted _
    · intro c
      rw [filter_sortDescByCount, value_counts, filter_sortDescByCount,
        List.filter_map]
      congr 1
    · intro t
      rw [get_failure_examples_eq coded fts hcol hne t 1, head?_take_one,
        List.head?_map, head?_filter]
  refine ⟨hmain, ?_, ?_, ?_, ?_, ?_⟩
  · rw [summarize_failure_types_eq axialScenarioFrame
      ["hallucination", "hallucination", "refusal"] rfl (by simp [axialScenarioFrame])]
    decide
  · rw [summarize_failure_types_eq axialScenarioFrame
      ["hallucination", "hallucination", "refusal"] rfl (by simp [axialScenarioFrame])]
    have hvc : value_counts ["hallucination", "hallucination", "refusal"]
        = [("hallucination", 2), ("refusal", 1)] := by decide
    rw [hvc]
    simp [axialScenarioFrame, Prod.ext_iff]
    norm_num
  · rw [round_eq]
    norm_num
  · rw [round_eq]
    norm_num
  · rw [get_failure_examples_eq axialScenarioFrame
      ["hallucination", "hallucination", "refusal"] rfl (by simp [axialScenarioFrame])
      "hallucination" 1]
    decide

/-- Witness for C9: applying the summary specification to the scenario
frame recovers its total of 3 coded rows and the count 2 for
hallucination. -/
theorem summarize_failure_types_spec_witness :
    (summarize_failure_types axialScenarioFrame).total = 3 ∧
    (("hallucination", 2) ∈ (summarize_failure_types axialScenarioFrame).counts) := by
  have h := summarize_failure_types_spec.1 axialScenarioFrame
      ["hallucination", "hallucination", "refusal"] rfl
      (by simp [axialScenarioFrame])
  refine ⟨?_, ?_⟩
  · rw [h.1]
    rfl
  · exact (h.2.1 "hallucination" 2).2 ⟨by simp, rfl⟩

end CompanyEvalFramework
